import Mathlib

/-!
# Rohm BU52014HFV hall-effect dock sensor driver

A shallow embedding of `drivers/input/misc/bu52014hfv.c`.

* Pointers are natural numbers, `0` being `NULL`.
* Every call the driver makes into the kernel is recorded, in program order, as an
  `Effect`; a driver function returns its C return value together with the list of
  effects it performed.
* The results of the kernel services the driver cannot control (allocation, interrupt
  registration, pin levels, ...) are inputs, gathered in `Platform`.
* `Kernel` is the part of the kernel state the driver acts on; `Kernel.apply` gives the
  meaning of one effect on it.
-/

namespace Bu52014hfv

/-! ## Constants -/

/-- The anonymous `enum` of dock states: `NO_DOCK`. -/
def NO_DOCK : Int := 0
/-- The anonymous `enum` of dock states: `DESK_DOCK`. -/
def DESK_DOCK : Int := 1
/-- The anonymous `enum` of dock states: `CAR_DOCK`. -/
def CAR_DOCK : Int := 2
/-- The anonymous `enum` of dock states: `KICKSTAND_DOCK`. -/
def KICKSTAND_DOCK : Int := 3

/-- Modelled from the spec: the error code `ENOMEM` of `linux/errno.h`, a header that is
not among the sources; the spec asks for a non-zero error on an allocation failure, and
12 is the value of the constant in Linux. -/
def ENOMEM : Int := 12
/-- Modelled from the spec: the error code `EINVAL` of `linux/errno.h`, a header that is
not among the sources; the spec asks for an error on an unknown mode, and 22 is the value
of the constant in Linux. -/
def EINVAL : Int := 22
/-- The three `work_struct` members of `struct bu52014hfv_info`. -/
inductive Work where
  | irq_north_work
  | irq_south_work
  | irq_kickstand_work
  deriving DecidableEq, Repr

/-- Modelled from the spec: the constants `BU52014HFV_DOCK_SENSOR` and
`BU52014HFV_KICKSTAND_SENSOR` of `linux/bu52014hfv.h`, a header that is not among the
sources. The spec gives the mode as one of Dock and Kickstand; `other` stands for every
value of `pdata->sensor_function` equal to neither constant. -/
inductive SensorFunction where
  | BU52014HFV_DOCK_SENSOR
  | BU52014HFV_KICKSTAND_SENSOR
  | other
  deriving DecidableEq, Repr

/-- Modelled from the spec: `struct bu52014hfv_platform_data` of `linux/bu52014hfv.h`, a
header that is not among the sources, with the fields the driver reads: the sensor mode,
the pin identifiers, the flag `north_is_desk` and the optional publish function.
`set_switch_func` tells whether the function pointer is non-NULL. -/
structure bu52014hfv_platform_data where
  sensor_function : SensorFunction
  docked_north_gpio : Int
  docked_south_gpio : Int
  kickstand_gpio : Int
  north_is_desk : Bool
  set_switch_func : Bool

/-- The record `struct bu52014hfv_info`. `self` is the address of the record, the value
the driver passes as `dev_id`; the three `work_struct` members are named by `Work`, and
the switch device lives in `Kernel`. -/
structure bu52014hfv_info where
  self : Nat
  sensor_function : Int
  gpio_north : Int
  gpio_south : Int
  gpio_kickstand : Int
  irq_north : Int
  irq_south : Int
  irq_kickstand : Int
  work_queue : Nat
  north_value : Int
  south_value : Int
  kickstand_value : Int
  set_switch_func : Bool
  deriving DecidableEq, Repr

/-- The record `kzalloc` hands out at address `p`: every field is zero. -/
def kzalloc_info (p : Nat) : bu52014hfv_info :=
  { self := p, sensor_function := 0,
    gpio_north := 0, gpio_south := 0, gpio_kickstand := 0,
    irq_north := 0, irq_south := 0, irq_kickstand := 0,
    work_queue := 0,
    north_value := 0, south_value := 0, kickstand_value := 0,
    set_switch_func := false }

/-- One call into the kernel, with its arguments and, where the driver looks at it, its
return value. -/
inductive Effect where
  | kzalloc (ret : Nat)
  | create_singlethread_workqueue (ret : Nat)
  | INIT_WORK (w : Work)
  | request_irq (irq : Int) (dev_id : Nat) (ret : Int)
  | free_irq (irq : Int) (dev_id : Nat)
  | enable_irq_wake (irq : Int)
  | disable_irq_wake (irq : Int)
  | switch_dev_register (ret : Int)
  | switch_dev_unregister
  | platform_set_drvdata (data : Nat)
  | set_switch_func (state : Int)
  | switch_set_state (state : Int)
  | gpio_free (gpio : Int)
  | destroy_workqueue (wq : Nat)
  | kfree (p : Nat)
  | disable_irq_nosync (irq : Int)
  | enable_irq (irq : Int)
  | queue_work (wq : Nat) (w : Work)
  deriving DecidableEq, Repr

/-- What the kernel answers to the driver during one probe; the kernel services are not
among the sources and their results are parameters. `kzalloc` and
`create_singlethread_workqueue` are the pointers returned (0 on failure),
`request_irq n irq` is the value returned by the `n`-th call of `request_irq` (counted
from 0), made for line `irq`, and `gpio_get_value` gives the pin levels at probe time. -/
structure Platform where
  kzalloc : Nat
  create_singlethread_workqueue : Nat
  gpio_to_irq : Int → Int
  request_irq : Nat → Int → Int
  switch_dev_register : Int
  gpio_get_value : Int → Int

/-! ## Integer operators of C -/

/-- The operator `!` of C. -/
def lnot (x : Int) : Nat := if x = 0 then 1 else 0

/-- The expression `(~state) & 1` on a 32-bit `int`, on its two's complement
representation. -/
def not_and_1 (state : Nat) : Nat := ((2 ^ 32 - 1 - state % 2 ^ 32) % 2 ^ 32) % 2

/-! ## The driver -/

/-- The function `bu52014hfv_update`: the computed `state` and the one publication. -/
def bu52014hfv_update (gpio_get_value : Int → Int) (info : bu52014hfv_info)
    (gpio : Int) (dock : Int) : Nat × List Effect :=
  let state := lnot (gpio_get_value gpio)
  let state := if gpio = info.gpio_kickstand then not_and_1 state else state
  if info.set_switch_func then
    (state, [Effect.set_switch_func (if state ≠ 0 then dock else NO_DOCK)])
  else
    (state, [Effect.switch_set_state (if state ≠ 0 then dock else NO_DOCK)])

/-- The function `bu52014hfv_irq_north_work_func`. -/
def bu52014hfv_irq_north_work_func (gpio_get_value : Int → Int)
    (info : bu52014hfv_info) : List Effect :=
  (bu52014hfv_update gpio_get_value info info.gpio_north info.north_value).2 ++
    [Effect.enable_irq info.irq_north]

/-- The function `bu52014hfv_irq_south_work_func`. -/
def bu52014hfv_irq_south_work_func (gpio_get_value : Int → Int)
    (info : bu52014hfv_info) : List Effect :=
  (bu52014hfv_update gpio_get_value info info.gpio_south info.south_value).2 ++
    [Effect.enable_irq info.irq_south]

/-- The function `bu52014hfv_irq_kickstand_work_func`. -/
def bu52014hfv_irq_kickstand_work_func (gpio_get_value : Int → Int)
    (info : bu52014hfv_info) : List Effect :=
  (bu52014hfv_update gpio_get_value info info.gpio_kickstand info.kickstand_value).2 ++
    [Effect.enable_irq info.irq_kickstand]

/-- What a probe function leaves behind: its return value, the calls it made, and the
record it stored with `platform_set_drvdata`, if it got that far. -/
structure Probe where
  ret : Int
  effects : List Effect
  drvdata : Option bu52014hfv_info

/-- The labels `error_create_wq_failed:` and `error_kmalloc_failed:`. -/
def error_create_wq_failed (info : bu52014hfv_info) : List Effect :=
  [Effect.kfree info.self]

/-- The label `error_request_irq_north_failed:` of the dock probe, and
`error_request_irq_kickstand_failed:` of the kickstand probe, falling through. -/
def error_request_irq_failed (info : bu52014hfv_info) : List Effect :=
  Effect.destroy_workqueue info.work_queue :: error_create_wq_failed info

/-- The label `error_request_irq_south_failed:`, falling through. -/
def error_request_irq_south_failed (info : bu52014hfv_info) : List Effect :=
  Effect.free_irq info.irq_north info.self :: error_request_irq_failed info

/-- The label `error_switch_device_failed:` of the dock probe, falling through. -/
def error_switch_device_failed_dock (info : bu52014hfv_info) : List Effect :=
  Effect.free_irq info.irq_south info.self :: error_request_irq_south_failed info

/-- The label `error_switch_device_failed:` of the kickstand probe, falling through. -/
def error_switch_device_failed_kickstand (info : bu52014hfv_info) : List Effect :=
  Effect.free_irq info.irq_kickstand info.self :: error_request_irq_failed info

/-- The record of the dock probe after the assignments of lines 152-168. -/
def dock_info (K : Platform) (pdata : bu52014hfv_platform_data) : bu52014hfv_info :=
  { kzalloc_info K.kzalloc with
    gpio_north := pdata.docked_north_gpio
    gpio_south := pdata.docked_south_gpio
    irq_north := K.gpio_to_irq pdata.docked_north_gpio
    irq_south := K.gpio_to_irq pdata.docked_south_gpio
    north_value := if pdata.north_is_desk then DESK_DOCK else CAR_DOCK
    south_value := if pdata.north_is_desk then CAR_DOCK else DESK_DOCK
    set_switch_func := pdata.set_switch_func
    work_queue := K.create_singlethread_workqueue }

/-- The record of the kickstand probe after the assignments of lines 242-248. -/
def kickstand_info (K : Platform) (pdata : bu52014hfv_platform_data) : bu52014hfv_info :=
  { kzalloc_info K.kzalloc with
    gpio_kickstand := pdata.kickstand_gpio
    irq_kickstand := K.gpio_to_irq pdata.kickstand_gpio
    kickstand_value := DESK_DOCK
    set_switch_func := pdata.set_switch_func
    work_queue := K.create_singlethread_workqueue }

/-- The two `bu52014hfv_update` calls that end the dock probe (lines 209-211). -/
def dock_initial_update (K : Platform) (info : bu52014hfv_info) : List Effect :=
  let south := bu52014hfv_update K.gpio_get_value info info.gpio_south info.south_value
  if south.1 = 0 then
    south.2 ++ (bu52014hfv_update K.gpio_get_value info info.gpio_north info.north_value).2
  else south.2

/-- The function `bu52014hfv_probe_dock_init`. -/
def bu52014hfv_probe_dock_init (K : Platform) (pdata : bu52014hfv_platform_data) : Probe :=
  let info := dock_info K pdata
  let e0 := [Effect.kzalloc K.kzalloc]
  if K.kzalloc = 0 then ⟨-ENOMEM, e0, none⟩ else
  let e1 := e0 ++ [Effect.create_singlethread_workqueue K.create_singlethread_workqueue]
  if K.create_singlethread_workqueue = 0 then
    ⟨-ENOMEM, e1 ++ error_create_wq_failed info, none⟩ else
  let ret := K.request_irq 0 info.irq_north
  let e2 := e1 ++ [Effect.INIT_WORK Work.irq_north_work, Effect.INIT_WORK Work.irq_south_work,
    Effect.request_irq info.irq_north info.self ret]
  if ret ≠ 0 then ⟨ret, e2 ++ error_request_irq_failed info, none⟩ else
  let ret := K.request_irq 1 info.irq_south
  let e3 := e2 ++ [Effect.request_irq info.irq_south info.self ret]
  if ret ≠ 0 then ⟨ret, e3 ++ error_request_irq_south_failed info, none⟩ else
  let e4 := e3 ++ [Effect.enable_irq_wake info.irq_north, Effect.enable_irq_wake info.irq_south]
  let finish (e : List Effect) : Probe :=
    ⟨0, e ++ [Effect.platform_set_drvdata info.self] ++ dock_initial_update K info, some info⟩
  if info.set_switch_func then finish e4 else
  let ret := K.switch_dev_register
  let e5 := e4 ++ [Effect.switch_dev_register ret]
  if ret ≠ 0 then ⟨ret, e5 ++ error_switch_device_failed_dock info, none⟩ else
  finish e5

/-- The function `bu52014hfv_probe_kickstand_init`. -/
def bu52014hfv_probe_kickstand_init (K : Platform) (pdata : bu52014hfv_platform_data) :
    Probe :=
  let info := kickstand_info K pdata
  let e0 := [Effect.kzalloc K.kzalloc]
  if K.kzalloc = 0 then ⟨-ENOMEM, e0, none⟩ else
  let e1 := e0 ++ [Effect.create_singlethread_workqueue K.create_singlethread_workqueue]
  if K.create_singlethread_workqueue = 0 then
    ⟨-ENOMEM, e1 ++ error_create_wq_failed info, none⟩ else
  let ret := K.request_irq 0 info.irq_kickstand
  let e2 := e1 ++ [Effect.INIT_WORK Work.irq_kickstand_work,
    Effect.request_irq info.irq_kickstand info.self ret]
  if ret ≠ 0 then ⟨ret, e2 ++ error_request_irq_failed info, none⟩ else
  let e3 := e2 ++ [Effect.enable_irq_wake info.irq_kickstand]
  let finish (e : List Effect) : Probe :=
    ⟨0, e ++ [Effect.platform_set_drvdata info.self] ++
      (bu52014hfv_update K.gpio_get_value info info.gpio_kickstand info.kickstand_value).2,
      some info⟩
  if info.set_switch_func then finish e3 else
  let ret := K.switch_dev_register
  let e4 := e3 ++ [Effect.switch_dev_register ret]
  if ret ≠ 0 then ⟨ret, e4 ++ error_switch_device_failed_kickstand info, none⟩ else
  finish e4

/-- The function `bu52014hfv_probe`. -/
def bu52014hfv_probe (K : Platform) (pdata : bu52014hfv_platform_data) : Probe :=
  match pdata.sensor_function with
  | SensorFunction.BU52014HFV_DOCK_SENSOR => bu52014hfv_probe_dock_init K pdata
  | SensorFunction.BU52014HFV_KICKSTAND_SENSOR => bu52014hfv_probe_kickstand_init K pdata
  | SensorFunction.other => ⟨-EINVAL, [], none⟩

/-- The statements of `bu52014hfv_remove` after the mode test (lines 325-330). -/
def remove_common (info : bu52014hfv_info) : List Effect :=
  [Effect.destroy_workqueue info.work_queue] ++
    (if info.set_switch_func then [] else [Effect.switch_dev_unregister]) ++
    [Effect.kfree info.self]

/-- The function `bu52014hfv_remove`; `info` is the record `platform_get_drvdata`
returns. -/
def bu52014hfv_remove (pdata : bu52014hfv_platform_data) (info : bu52014hfv_info) :
    Int × List Effect :=
  match pdata.sensor_function with
  | SensorFunction.BU52014HFV_DOCK_SENSOR =>
    (0, [Effect.disable_irq_wake info.irq_north, Effect.disable_irq_wake info.irq_south,
         Effect.free_irq info.irq_north 0, Effect.free_irq info.irq_south 0,
         Effect.gpio_free info.gpio_north, Effect.gpio_free info.gpio_south] ++
        remove_common info)
  | SensorFunction.BU52014HFV_KICKSTAND_SENSOR =>
    (0, [Effect.disable_irq_wake info.irq_kickstand,
         Effect.free_irq info.irq_kickstand 0,
         Effect.gpio_free info.gpio_kickstand] ++
        remove_common info)
  | SensorFunction.other => (-EINVAL, [])

/-! ## The pins of a controller -/

/-- The pins a controller can monitor. -/
inductive Pin where
  | north
  | south
  | kickstand
  deriving DecidableEq, Repr

/-- The GPIO number the record holds for a pin. -/
def Pin.gpio (info : bu52014hfv_info) : Pin → Int
  | Pin.north => info.gpio_north
  | Pin.south => info.gpio_south
  | Pin.kickstand => info.gpio_kickstand

/-- The interrupt number the record holds for a pin. -/
def Pin.irq (info : bu52014hfv_info) : Pin → Int
  | Pin.north => info.irq_north
  | Pin.south => info.irq_south
  | Pin.kickstand => info.irq_kickstand

/-- The dock state a pin is mapped to. -/
def Pin.value (info : bu52014hfv_info) : Pin → Int
  | Pin.north => info.north_value
  | Pin.south => info.south_value
  | Pin.kickstand => info.kickstand_value

/-- The work function bound to a pin by `INIT_WORK`. -/
def Pin.work_func (gpio_get_value : Int → Int) (info : bu52014hfv_info) : Pin → List Effect
  | Pin.north => bu52014hfv_irq_north_work_func gpio_get_value info
  | Pin.south => bu52014hfv_irq_south_work_func gpio_get_value info
  | Pin.kickstand => bu52014hfv_irq_kickstand_work_func gpio_get_value info

/-- The pins for which a probe registers an interrupt handler. -/
def monitored : SensorFunction → List Pin
  | SensorFunction.BU52014HFV_DOCK_SENSOR => [Pin.north, Pin.south]
  | SensorFunction.BU52014HFV_KICKSTAND_SENSOR => [Pin.kickstand]
  | SensorFunction.other => []

/-- The value an effect hands to the state sink, if it is a publication. -/
def Effect.published : Effect → Option Int
  | Effect.set_switch_func v => some v
  | Effect.switch_set_state v => some v
  | _ => none

/-- The values published by a list of effects, oldest first. -/
def publications (es : List Effect) : List Int := es.filterMap Effect.published

/-- The kernel objects the driver acquires, masks or feeds. A subscription is the pair
(interrupt number, `dev_id`) given to `request_irq`. -/
structure Kernel where
  memory : List Nat
  workqueues : List Nat
  subscriptions : List (Int × Nat)
  wake_depth : Int → Nat
  depth : Int → Nat
  queue : List Work
  switch_registered : Bool
  drvdata : Option Nat
  sink : Option Int

/-- The kernel before the probe: nothing held, every line unmasked and not wake-enabled,
nothing queued, nothing published. -/
def Kernel.boot : Kernel :=
  { memory := [], workqueues := [], subscriptions := [],
    wake_depth := fun _ => 0, depth := fun _ => 0, queue := [],
    switch_registered := false, drvdata := none, sink := none }

/-- Modelled from the spec: the kernel services the driver calls (`request_irq`,
`free_irq`, `enable_irq`, `disable_irq_nosync`, `enable_irq_wake`, `disable_irq_wake`,
`queue_work`, `destroy_workqueue`, `kzalloc`, `kfree`, `switch_set_state`, ...), which are
not among the sources: subscribe and release, mask and unmask, wake-enable, schedule and
shutdown, publish. `request_irq`, when it returns 0, adds a subscription and
leaves the line unmasked; `free_irq` removes only a subscription whose interrupt number
and `dev_id` both match; `disable_irq_nosync` and `enable_irq` count the disable depth of
a line, which is masked while the depth is positive; `queue_work` appends the unit to the
queue without looking whether it is already there, so that a bound on the queue is a
property of the driver and not of the queue; `destroy_workqueue` leaves the queue empty. -/
def Kernel.apply (k : Kernel) : Effect → Kernel
  | Effect.kzalloc ret => if ret = 0 then k else { k with memory := ret :: k.memory }
  | Effect.create_singlethread_workqueue ret =>
    if ret = 0 then k else { k with workqueues := ret :: k.workqueues }
  | Effect.INIT_WORK _ => k
  | Effect.request_irq irq dev_id ret =>
    if ret = 0 then
      { k with subscriptions := (irq, dev_id) :: k.subscriptions
               depth := Function.update k.depth irq 0 }
    else k
  | Effect.free_irq irq dev_id => { k with subscriptions := k.subscriptions.erase (irq, dev_id) }
  | Effect.enable_irq_wake irq =>
    { k with wake_depth := Function.update k.wake_depth irq (k.wake_depth irq + 1) }
  | Effect.disable_irq_wake irq =>
    { k with wake_depth := Function.update k.wake_depth irq (k.wake_depth irq - 1) }
  | Effect.switch_dev_register ret => if ret = 0 then { k with switch_registered := true } else k
  | Effect.switch_dev_unregister => { k with switch_registered := false }
  | Effect.platform_set_drvdata data => { k with drvdata := some data }
  | Effect.set_switch_func state => { k with sink := some state }
  | Effect.switch_set_state state => { k with sink := some state }
  | Effect.gpio_free _ => k
  | Effect.destroy_workqueue wq => { k with workqueues := k.workqueues.erase wq, queue := [] }
  | Effect.kfree p => { k with memory := k.memory.erase p }
  | Effect.disable_irq_nosync irq =>
    { k with depth := Function.update k.depth irq (k.depth irq + 1) }
  | Effect.enable_irq irq => { k with depth := Function.update k.depth irq (k.depth irq - 1) }
  | Effect.queue_work _ w => { k with queue := k.queue ++ [w] }

/-- The kernel after a list of effects, performed oldest first. -/
def Kernel.run (k : Kernel) (es : List Effect) : Kernel := es.foldl Kernel.apply k

/-! ## Resources held by a probe -/

/-- The resources a probe acquires and has to give back. -/
inductive Resource where
  | memory (p : Nat)
  | workqueue (wq : Nat)
  | subscription (irq : Int) (dev_id : Nat)
  deriving DecidableEq, Repr

/-- The resource a call acquires, when it succeeds. -/
def Effect.acquires : Effect → Option Resource
  | Effect.kzalloc ret => if ret = 0 then none else some (Resource.memory ret)
  | Effect.create_singlethread_workqueue ret =>
    if ret = 0 then none else some (Resource.workqueue ret)
  | Effect.request_irq irq dev_id ret =>
    if ret = 0 then some (Resource.subscription irq dev_id) else none
  | _ => none

/-- The resource a call asks the kernel to release. -/
def Effect.releases : Effect → Option Resource
  | Effect.kfree p => some (Resource.memory p)
  | Effect.destroy_workqueue wq => some (Resource.workqueue wq)
  | Effect.free_irq irq dev_id => some (Resource.subscription irq dev_id)
  | _ => none

/-- The resources acquired by a list of effects, in order of acquisition. -/
def acquired (es : List Effect) : List Resource := es.filterMap Effect.acquires

/-- The resources released by a list of effects, in order of release. -/
def released (es : List Effect) : List Resource := es.filterMap Effect.releases

/-- A probe that failed and undid itself: it returns an error, stores no driver data,
releases what it acquired in the reverse order, and the kernel it started from `boot`
holds no memory, work queue or subscription and no driver data. -/
def rolled_back (P : Probe) : Prop :=
  P.ret ≠ 0 ∧ P.drvdata = none ∧
  released P.effects = (acquired P.effects).reverse ∧
  (Kernel.run Kernel.boot P.effects).memory = [] ∧
  (Kernel.run Kernel.boot P.effects).workqueues = [] ∧
  (Kernel.run Kernel.boot P.effects).subscriptions = [] ∧
  (Kernel.run Kernel.boot P.effects).drvdata = none

/-! ## Order of calls -/

/-- The call `destroy_workqueue`. -/
def Effect.is_destroy_workqueue : Effect → Bool
  | Effect.destroy_workqueue _ => true
  | _ => false

/-- The calls that release a pin: `free_irq` and `gpio_free`. -/
def Effect.is_pin_release : Effect → Bool
  | Effect.free_irq _ _ => true
  | Effect.gpio_free _ => true
  | _ => false

/-- The calls that release the sink or the record: `switch_dev_unregister` and `kfree`. -/
def Effect.is_sink_or_memory_release : Effect → Bool
  | Effect.switch_dev_unregister => true
  | Effect.kfree _ => true
  | _ => false

/-- The calls that release a resource of the controller. -/
def Effect.is_release (e : Effect) : Bool :=
  e.is_pin_release || e.is_sink_or_memory_release

/-- Whether every call satisfying `a` comes before every call satisfying `b`: once a call
satisfying `b` has been made, no later call satisfies `a`. -/
def all_before (a b : Effect → Bool) : List Effect → Bool
  | [] => true
  | e :: es => (!b e || es.all (fun x => !a x)) && all_before a b es

/-! ## The interrupt path as a transition system -/

/-- A board whose GPIO 0 reads `l0` and whose other pins read `l1`. -/
def levels (l0 l1 : Int) (gpio : Int) : Int := if gpio = 0 then l0 else l1

/-- A platform on which every acquisition succeeds: the record is allocated at 4096, the
work queue at 8192, and the interrupt numbers and pin levels are as given. -/
def board (gpio_to_irq : Int → Int) (gpio_get_value : Int → Int) : Platform :=
  { kzalloc := 4096, create_singlethread_workqueue := 8192,
    gpio_to_irq := gpio_to_irq, request_irq := fun _ _ => 0,
    switch_dev_register := 0, gpio_get_value := gpio_get_value }

/-- A platform like `board` on which the `n`-th `request_irq` returns `irq_ret n` and
`switch_dev_register` returns `switch_ret`. -/
def failing_board (irq_ret : Nat → Int) (switch_ret : Int) : Platform :=
  { kzalloc := 4096, create_singlethread_workqueue := 8192,
    gpio_to_irq := fun gpio => 160 + gpio, request_irq := fun n _ => irq_ret n,
    switch_dev_register := switch_ret, gpio_get_value := fun _ => 1 }

/-- Interrupt numbering of a GPIO bank starting at line 160. -/
def bank_irq (gpio : Int) : Int := 160 + gpio

/-- Platform data of a dock sensor publishing through the switch device. -/
def dock_pdata (north south : Int) (north_is_desk : Bool) : bu52014hfv_platform_data :=
  { sensor_function := SensorFunction.BU52014HFV_DOCK_SENSOR,
    docked_north_gpio := north, docked_south_gpio := south, kickstand_gpio := 0,
    north_is_desk := north_is_desk, set_switch_func := false }

/-- Platform data of a kickstand sensor publishing through the switch device. -/
def kickstand_pdata (kickstand : Int) : bu52014hfv_platform_data :=
  { sensor_function := SensorFunction.BU52014HFV_KICKSTAND_SENSOR,
    docked_north_gpio := 0, docked_south_gpio := 0, kickstand_gpio := kickstand,
    north_is_desk := false, set_switch_func := false }

/-! ## Basic facts -/

theorem lnot_eq_one (x : Int) (h : x = 0) : lnot x = 1 := by simp [lnot, h]

theorem lnot_eq_zero (x : Int) (h : x ≠ 0) : lnot x = 0 := by simp [lnot, h]

theorem not_and_1_lnot (x : Int) : not_and_1 (lnot x) = if x = 0 then 0 else 1 := by
  by_cases h : x = 0 <;> simp [lnot, not_and_1, h]

/-- The record stored by a dock probe is `dock_info`, and every acquisition succeeded. -/
theorem dock_init_drvdata (K : Platform) (pdata : bu52014hfv_platform_data)
    (info : bu52014hfv_info)
    (h : (bu52014hfv_probe_dock_init K pdata).drvdata = some info) :
    info = dock_info K pdata ∧ K.kzalloc ≠ 0 ∧ K.create_singlethread_workqueue ≠ 0 ∧
      K.request_irq 0 (K.gpio_to_irq pdata.docked_north_gpio) = 0 ∧
      K.request_irq 1 (K.gpio_to_irq pdata.docked_south_gpio) = 0 ∧
      (pdata.set_switch_func = false → K.switch_dev_register = 0) := by
  unfold bu52014hfv_probe_dock_init at h
  simp only [dock_info, kzalloc_info] at h ⊢
  split_ifs at h <;> simp_all

/-- The record stored by a kickstand probe is `kickstand_info`, and every acquisition
succeeded. -/
theorem kickstand_init_drvdata (K : Platform) (pdata : bu52014hfv_platform_data)
    (info : bu52014hfv_info)
    (h : (bu52014hfv_probe_kickstand_init K pdata).drvdata = some info) :
    info = kickstand_info K pdata ∧ K.kzalloc ≠ 0 ∧ K.create_singlethread_workqueue ≠ 0 ∧
      K.request_irq 0 (K.gpio_to_irq pdata.kickstand_gpio) = 0 ∧
      (pdata.set_switch_func = false → K.switch_dev_register = 0) := by
  unfold bu52014hfv_probe_kickstand_init at h
  simp only [kickstand_info, kzalloc_info] at h ⊢
  split_ifs at h <;> simp_all

/-- The one publication of `bu52014hfv_update`. -/
theorem publications_update (lv : Int → Int) (info : bu52014hfv_info) (gpio dock : Int) :
    publications (bu52014hfv_update lv info gpio dock).2 =
      [if (bu52014hfv_update lv info gpio dock).1 ≠ 0 then dock else NO_DOCK] := by
  unfold bu52014hfv_update publications
  by_cases hf : info.set_switch_func = true <;> simp [hf, Effect.published]

/-- The `state` of `bu52014hfv_update` for a pin that is not `info->gpio_kickstand`. -/
theorem update_state_plain (lv : Int → Int) (info : bu52014hfv_info) (gpio dock : Int)
    (h : gpio ≠ info.gpio_kickstand) :
    (bu52014hfv_update lv info gpio dock).1 = lnot (lv gpio) := by
  unfold bu52014hfv_update
  by_cases hf : info.set_switch_func = true <;> simp [hf, h]

/-- The `state` of `bu52014hfv_update` for the pin `info->gpio_kickstand`. -/
theorem update_state_inverted (lv : Int → Int) (info : bu52014hfv_info) (dock : Int) :
    (bu52014hfv_update lv info info.gpio_kickstand dock).1 =
      if lv info.gpio_kickstand = 0 then 0 else 1 := by
  unfold bu52014hfv_update
  by_cases hf : info.set_switch_func = true <;> simp [hf, not_and_1_lnot]

/-! ## Polarity of `bu52014hfv_update` -/

/-- C1, evaluated on a dock controller whose north pin is GPIO 0 (south is GPIO 1,
`north_is_desk` set): the probe succeeds and its record keeps `gpio_kickstand` at the
zero `kzalloc` left there, so `bu52014hfv_update` takes GPIO 0 for the kickstand pin and
inverts it. With the north pin low it publishes `NO_DOCK` and returns 0; with the north
pin high it publishes the mapped state `DESK_DOCK` and returns 1. -/
theorem dock_pin_zero_read_with_kickstand_polarity :
    (bu52014hfv_probe_dock_init (board bank_irq (fun _ => 0)) (dock_pdata 0 1 true)).drvdata =
      some (dock_info (board bank_irq (fun _ => 0)) (dock_pdata 0 1 true)) ∧
    (dock_info (board bank_irq (fun _ => 0)) (dock_pdata 0 1 true)).gpio_north = 0 ∧
    (dock_info (board bank_irq (fun _ => 0)) (dock_pdata 0 1 true)).gpio_kickstand = 0 ∧
    bu52014hfv_update (fun _ => 0) (dock_info (board bank_irq (fun _ => 0)) (dock_pdata 0 1 true))
        0 DESK_DOCK =
      (0, [Effect.switch_set_state NO_DOCK]) ∧
    bu52014hfv_update (fun _ => 1) (dock_info (board bank_irq (fun _ => 0)) (dock_pdata 0 1 true))
        0 DESK_DOCK =
      (1, [Effect.switch_set_state DESK_DOCK]) := by
  refine ⟨by decide, by decide, by decide, by decide, by decide⟩

/-- The polarity of the dock pins whose GPIO number is not 0: the mapped state is
published, and 1 returned, exactly when the pin reads low. -/
theorem dock_update_active_low (K : Platform) (pdata : bu52014hfv_platform_data)
    (info : bu52014hfv_info)
    (h : (bu52014hfv_probe_dock_init K pdata).drvdata = some info)
    (pin : Pin) (hgpio : pin.gpio info ≠ 0) (lv : Int → Int) (M : Int) :
    (lv (pin.gpio info) = 0 →
      publications (bu52014hfv_update lv info (pin.gpio info) M).2 = [M] ∧
      (bu52014hfv_update lv info (pin.gpio info) M).1 = 1) ∧
    (lv (pin.gpio info) ≠ 0 →
      publications (bu52014hfv_update lv info (pin.gpio info) M).2 = [NO_DOCK] ∧
      (bu52014hfv_update lv info (pin.gpio info) M).1 = 0) := by
  obtain ⟨rfl, -⟩ := dock_init_drvdata K pdata info h
  have hk : pin.gpio (dock_info K pdata) ≠ (dock_info K pdata).gpio_kickstand := by
    simpa [dock_info, kzalloc_info] using hgpio
  rw [publications_update, update_state_plain _ _ _ _ hk]
  constructor
  · intro h0; simp [lnot, h0]
  · intro h1; simp [lnot, h1]

/-- C2: on the record of a successful kickstand probe, `bu52014hfv_update` on the
kickstand pin publishes `DESK_DOCK` (and returns 1) when the pin level is non-zero and
publishes `NO_DOCK` (and returns 0) when it is zero; any other pin at the same raw level
resolves to the opposite state. -/
theorem kickstand_update_active_high (K : Platform) (pdata : bu52014hfv_platform_data)
    (info : bu52014hfv_info)
    (h : (bu52014hfv_probe_kickstand_init K pdata).drvdata = some info)
    (lv : Int → Int) :
    (lv info.gpio_kickstand ≠ 0 →
      publications (bu52014hfv_update lv info info.gpio_kickstand info.kickstand_value).2 =
        [DESK_DOCK] ∧
      (bu52014hfv_update lv info info.gpio_kickstand info.kickstand_value).1 = 1) ∧
    (lv info.gpio_kickstand = 0 →
      publications (bu52014hfv_update lv info info.gpio_kickstand info.kickstand_value).2 =
        [NO_DOCK] ∧
      (bu52014hfv_update lv info info.gpio_kickstand info.kickstand_value).1 = 0) ∧
    (∀ gpio dock : Int, gpio ≠ info.gpio_kickstand → lv gpio = lv info.gpio_kickstand →
      ((bu52014hfv_update lv info gpio dock).1 = 1 ↔
        (bu52014hfv_update lv info info.gpio_kickstand info.kickstand_value).1 = 0)) := by
  obtain ⟨rfl, -⟩ := kickstand_init_drvdata K pdata info h
  have hv : (kickstand_info K pdata).kickstand_value = DESK_DOCK := rfl
  rw [publications_update, update_state_inverted, hv]
  refine ⟨fun h1 => by simp [h1, DESK_DOCK], fun h0 => by simp [h0], ?_⟩
  intro gpio dock hg hl
  rw [update_state_plain _ _ _ _ hg, hl]
  by_cases h0 : lv (kickstand_info K pdata).gpio_kickstand = 0 <;> simp [lnot, h0]

/-- C2 at GPIO 7 read high and GPIO 8 read high as well. -/
theorem kickstand_update_active_high_witness :
    publications (bu52014hfv_update (fun _ => 1) (kickstand_info (board bank_irq (fun _ => 1))
      (kickstand_pdata 7)) 7 DESK_DOCK).2 = [DESK_DOCK] ∧
    ((bu52014hfv_update (fun _ => 1) (kickstand_info (board bank_irq (fun _ => 1))
      (kickstand_pdata 7)) 8 CAR_DOCK).1 = 1 ↔
     (bu52014hfv_update (fun _ => 1) (kickstand_info (board bank_irq (fun _ => 1))
      (kickstand_pdata 7)) 7 DESK_DOCK).1 = 0) :=
  ⟨((kickstand_update_active_high (board bank_irq (fun _ => 1)) (kickstand_pdata 7) _ rfl
      (fun _ => 1)).1 (by decide)).1,
   (kickstand_update_active_high (board bank_irq (fun _ => 1)) (kickstand_pdata 7) _ rfl
      (fun _ => 1)).2.2 8 CAR_DOCK (by decide) rfl⟩

/-! ## Initial state of the dock probe -/

/-- C3, evaluated on a dock controller whose south pin is GPIO 0 (north is GPIO 1,
`north_is_desk` set): the probe succeeds; with south low and north high the sink holds
`NO_DOCK` when the probe returns, not `CAR_DOCK`, and with both pins high it holds
`CAR_DOCK`, not `NO_DOCK`. -/
theorem dock_init_south_pin_zero :
    (bu52014hfv_probe_dock_init (board bank_irq (levels 0 1)) (dock_pdata 1 0 true)).ret = 0 ∧
    (Kernel.run Kernel.boot (bu52014hfv_probe_dock_init (board bank_irq (levels 0 1))
      (dock_pdata 1 0 true)).effects).sink = some NO_DOCK ∧
    (bu52014hfv_probe_dock_init (board bank_irq (levels 1 1)) (dock_pdata 1 0 true)).ret = 0 ∧
    (Kernel.run Kernel.boot (bu52014hfv_probe_dock_init (board bank_irq (levels 1 1))
      (dock_pdata 1 0 true)).effects).sink = some CAR_DOCK := by
  refine ⟨by decide, by decide, by decide, by decide⟩

/-- The state `bu52014hfv_update` computes, as a function of the pin level. -/
theorem update_fst (lv : Int → Int) (info : bu52014hfv_info) (gpio dock : Int) :
    (bu52014hfv_update lv info gpio dock).1 =
      if gpio = info.gpio_kickstand then (if lv gpio = 0 then 0 else 1) else lnot (lv gpio) := by
  by_cases h : gpio = info.gpio_kickstand
  · subst h; simp [update_state_inverted]
  · simp [h, update_state_plain]

/-- The effect list of `bu52014hfv_update` is its one publication. -/
theorem update_snd (lv : Int → Int) (info : bu52014hfv_info) (gpio dock : Int) :
    (bu52014hfv_update lv info gpio dock).2 =
      [if info.set_switch_func then
          Effect.set_switch_func
            (if (bu52014hfv_update lv info gpio dock).1 ≠ 0 then dock else NO_DOCK)
        else
          Effect.switch_set_state
            (if (bu52014hfv_update lv info gpio dock).1 ≠ 0 then dock else NO_DOCK)] := by
  unfold bu52014hfv_update
  by_cases hf : info.set_switch_func = true <;> simp [hf]

/-- The sink after a list of effects holds the last value published, if there is one. -/
theorem sink_run (es : List Effect) (k : Kernel) :
    (Kernel.run k es).sink =
      match (publications es).getLast? with
      | some v => some v
      | none => k.sink := by
  induction es using List.reverseRecOn with
  | nil => simp [Kernel.run, publications]
  | append_singleton es e ih =>
    have hrun : Kernel.run k (es ++ [e]) = (Kernel.run k es).apply e := by
      simp [Kernel.run, List.foldl_append]
    rw [hrun]
    cases e <;>
      simp [Kernel.apply, publications, List.filterMap_append, Effect.published] at ih ⊢ <;>
      first
        | exact ih
        | (split_ifs <;> simp [ih])

/-- The order of the two initial updates of the dock probe: south is published first, and
north is published after it exactly when south resolved to state 0. -/
theorem publications_dock_initial_update (K : Platform) (info : bu52014hfv_info) :
    publications (dock_initial_update K info) =
      if (bu52014hfv_update K.gpio_get_value info info.gpio_south info.south_value).1 = 0 then
        [NO_DOCK,
          if (bu52014hfv_update K.gpio_get_value info info.gpio_north info.north_value).1 ≠ 0
          then info.north_value else NO_DOCK]
      else [info.south_value] := by
  unfold dock_initial_update
  by_cases h : (bu52014hfv_update K.gpio_get_value info info.gpio_south info.south_value).1 = 0
  · simp only [h, if_true]
    have := publications_update K.gpio_get_value info info.gpio_south info.south_value
    have h2 := publications_update K.gpio_get_value info info.gpio_north info.north_value
    simp only [publications, List.filterMap_append] at this h2 ⊢
    rw [this, h2]; simp [h]
  · simp only [h, if_false]
    rw [publications_update]; simp [h]

/-- A successful dock probe publishes what its two final updates publish. -/
theorem publications_dock_init (K : Platform) (pdata : bu52014hfv_platform_data)
    (info : bu52014hfv_info)
    (h : (bu52014hfv_probe_dock_init K pdata).drvdata = some info) :
    publications (bu52014hfv_probe_dock_init K pdata).effects =
      publications (dock_initial_update K info) := by
  obtain ⟨rfl, h1, h2, h3, h4, h5⟩ := dock_init_drvdata K pdata info h
  have h3' : K.request_irq 0 (dock_info K pdata).irq_north = 0 := h3
  have h4' : K.request_irq 1 (dock_info K pdata).irq_south = 0 := h4
  unfold bu52014hfv_probe_dock_init
  simp only [h1, h2, h3', h4', if_false, ne_eq, not_true_eq_false, not_false_eq_true]
  by_cases hf : (dock_info K pdata).set_switch_func = true
  · simp [hf, publications, List.filterMap_append, Effect.published]
  · have hf' : pdata.set_switch_func = false := by simpa [dock_info] using hf
    simp [hf, h5 hf', publications, List.filterMap_append, Effect.published]

/-- The priority of the dock probe, for controllers neither of whose pins is GPIO 0: when
the probe returns, the sink holds south's mapped state if south reads low, otherwise
north's mapped state if north reads low, otherwise `NO_DOCK`; north is published only
when south resolved to `NO_DOCK`. -/
theorem dock_init_priority (K : Platform) (pdata : bu52014hfv_platform_data)
    (info : bu52014hfv_info)
    (h : (bu52014hfv_probe_dock_init K pdata).drvdata = some info)
    (hs : info.gpio_south ≠ 0) (hn : info.gpio_north ≠ 0) :
    publications (bu52014hfv_probe_dock_init K pdata).effects =
      (if K.gpio_get_value info.gpio_south = 0 then [info.south_value]
       else [NO_DOCK,
         if K.gpio_get_value info.gpio_north = 0 then info.north_value else NO_DOCK]) ∧
    (Kernel.run Kernel.boot (bu52014hfv_probe_dock_init K pdata).effects).sink =
      some (if K.gpio_get_value info.gpio_south = 0 then info.south_value
        else if K.gpio_get_value info.gpio_north = 0 then info.north_value
        else NO_DOCK) := by
  have hk : info.gpio_kickstand = 0 := by
    obtain ⟨rfl, -⟩ := dock_init_drvdata K pdata info h
    rfl
  have hpub : publications (bu52014hfv_probe_dock_init K pdata).effects =
      (if K.gpio_get_value info.gpio_south = 0 then [info.south_value]
       else [NO_DOCK,
         if K.gpio_get_value info.gpio_north = 0 then info.north_value else NO_DOCK]) := by
    rw [publications_dock_init K pdata info h, publications_dock_initial_update,
      update_state_plain _ _ _ _ (by rw [hk]; exact hs),
      update_state_plain _ _ _ _ (by rw [hk]; exact hn)]
    by_cases h0 : K.gpio_get_value info.gpio_south = 0
    · simp [lnot, h0]
    · by_cases h1 : K.gpio_get_value info.gpio_north = 0 <;> simp [lnot, h0, h1]
  refine ⟨hpub, ?_⟩
  rw [sink_run, hpub]
  by_cases h0 : K.gpio_get_value info.gpio_south = 0
  · simp [h0]
  · simp [h0]

/-! ## Rollback of a failed probe -/

/-- C5: in both modes, when an acquisition step of the probe fails (allocation of the
record, creation of the work queue, a `request_irq`, registration of the switch device),
the probe returns a non-zero value, stores no driver data, and has released the
subscriptions, the work queue and the record it had acquired, in the reverse of the
order of acquisition, so that none of them is held any more. -/
theorem probe_failure_rolls_back (K : Platform) (pdata : bu52014hfv_platform_data) :
    ((K.kzalloc = 0 ∨ K.create_singlethread_workqueue = 0 ∨
        K.request_irq 0 (K.gpio_to_irq pdata.docked_north_gpio) ≠ 0 ∨
        K.request_irq 1 (K.gpio_to_irq pdata.docked_south_gpio) ≠ 0 ∨
        (pdata.set_switch_func = false ∧ K.switch_dev_register ≠ 0)) →
      rolled_back (bu52014hfv_probe_dock_init K pdata)) ∧
    ((K.kzalloc = 0 ∨ K.create_singlethread_workqueue = 0 ∨
        K.request_irq 0 (K.gpio_to_irq pdata.kickstand_gpio) ≠ 0 ∨
        (pdata.set_switch_func = false ∧ K.switch_dev_register ≠ 0)) →
      rolled_back (bu52014hfv_probe_kickstand_init K pdata)) := by
  constructor
  · intro hfail
    unfold bu52014hfv_probe_dock_init rolled_back
    simp only [dock_info, kzalloc_info] at hfail ⊢
    split_ifs <;>
      simp_all [ENOMEM, released, acquired, Effect.releases, Effect.acquires, Kernel.run,
        Kernel.apply, Kernel.boot, error_create_wq_failed, error_request_irq_failed,
        error_request_irq_south_failed, error_switch_device_failed_dock]
  · intro hfail
    unfold bu52014hfv_probe_kickstand_init rolled_back
    simp only [kickstand_info, kzalloc_info] at hfail ⊢
    split_ifs <;>
      simp_all [ENOMEM, released, acquired, Effect.releases, Effect.acquires, Kernel.run,
        Kernel.apply, Kernel.boot, error_create_wq_failed, error_request_irq_failed,
        error_switch_device_failed_kickstand]

/-- C5 on a dock probe whose second `request_irq` returns -16 and on a kickstand probe
whose `switch_dev_register` returns -12. -/
theorem probe_failure_rolls_back_witness :
    rolled_back (bu52014hfv_probe_dock_init (failing_board (fun n => if n = 1 then -16 else 0) 0)
      (dock_pdata 3 4 true)) ∧
    acquired (bu52014hfv_probe_dock_init (failing_board (fun n => if n = 1 then -16 else 0) 0)
      (dock_pdata 3 4 true)).effects =
      [Resource.memory 4096, Resource.workqueue 8192, Resource.subscription 163 4096] ∧
    rolled_back (bu52014hfv_probe_kickstand_init (failing_board (fun _ => 0) (-12))
      (kickstand_pdata 5)) ∧
    acquired (bu52014hfv_probe_kickstand_init (failing_board (fun _ => 0) (-12))
      (kickstand_pdata 5)).effects =
      [Resource.memory 4096, Resource.workqueue 8192, Resource.subscription 165 4096] :=
  ⟨(probe_failure_rolls_back (failing_board (fun n => if n = 1 then -16 else 0) 0)
      (dock_pdata 3 4 true)).1 (Or.inr (Or.inr (Or.inr (Or.inl (by decide))))),
   by decide,
   (probe_failure_rolls_back (failing_board (fun _ => 0) (-12))
      (kickstand_pdata 5)).2 (Or.inr (Or.inr (Or.inr ⟨rfl, by decide⟩))),
   by decide⟩

/-! ## Wake-enablement of a failed probe -/

/-- C10, evaluated on probes whose `switch_dev_register` returns -12: the dock probe
returns -12 and leaves lines 163 and 164 wake-enabled (depth 1) although their
subscriptions are gone; the kickstand probe returns -12 and leaves line 165 wake-enabled.
The error path calls `free_irq` but never `disable_irq_wake`, which `bu52014hfv_remove`
calls before `free_irq`. -/
theorem failed_probe_leaves_wake_enabled :
    (bu52014hfv_probe_dock_init (failing_board (fun _ => 0) (-12)) (dock_pdata 3 4 true)).ret
      = -12 ∧
    (Kernel.run Kernel.boot (bu52014hfv_probe_dock_init (failing_board (fun _ => 0) (-12))
      (dock_pdata 3 4 true)).effects).wake_depth 163 = 1 ∧
    (Kernel.run Kernel.boot (bu52014hfv_probe_dock_init (failing_board (fun _ => 0) (-12))
      (dock_pdata 3 4 true)).effects).wake_depth 164 = 1 ∧
    (Kernel.run Kernel.boot (bu52014hfv_probe_dock_init (failing_board (fun _ => 0) (-12))
      (dock_pdata 3 4 true)).effects).subscriptions = [] ∧
    (bu52014hfv_probe_kickstand_init (failing_board (fun _ => 0) (-12)) (kickstand_pdata 5)).ret
      = -12 ∧
    (Kernel.run Kernel.boot (bu52014hfv_probe_kickstand_init (failing_board (fun _ => 0) (-12))
      (kickstand_pdata 5)).effects).wake_depth 165 = 1 := by
  refine ⟨by decide, by decide, by decide, by decide, by decide, by decide⟩

/-! ## Teardown -/

/-- C6, on every record stored by a successful probe: `bu52014hfv_remove` returns 0 in
both modes, yet the subscriptions held after it are those held before it, one per
monitored pin, because it calls `free_irq` with `dev_id` 0 while the subscriptions were
registered with the address of the record (as the error path of the probe frees them). -/
theorem remove_keeps_subscriptions (K : Platform) (pdata : bu52014hfv_platform_data)
    (info : bu52014hfv_info) (h : (bu52014hfv_probe K pdata).drvdata = some info) :
    (bu52014hfv_remove pdata info).1 = 0 ∧
    (Kernel.run Kernel.boot
      ((bu52014hfv_probe K pdata).effects ++ (bu52014hfv_remove pdata info).2)).subscriptions =
      ((monitored pdata.sensor_function).map (fun pin => (pin.irq info, info.self))).reverse ∧
    (monitored pdata.sensor_function).map (fun pin => (pin.irq info, info.self)) ≠ [] := by
  unfold bu52014hfv_probe at h ⊢
  cases hm : pdata.sensor_function with
  | BU52014HFV_DOCK_SENSOR =>
    simp only [hm] at h ⊢
    obtain ⟨rfl, h1, h2, h3, h4, h5⟩ := dock_init_drvdata K pdata info h
    have h3' : K.request_irq 0 (dock_info K pdata).irq_north = 0 := h3
    have h4' : K.request_irq 1 (dock_info K pdata).irq_south = 0 := h4
    have hself : (dock_info K pdata).self = K.kzalloc := rfl
    have hne : ¬ ((0 : Nat) = K.kzalloc) := fun e => h1 e.symm
    refine ⟨by simp [bu52014hfv_remove, hm], ?_, by simp [monitored]⟩
    unfold bu52014hfv_probe_dock_init
    simp only [h1, h2, h3', h4', if_false, ne_eq, not_true_eq_false, not_false_eq_true]
    by_cases hf : (dock_info K pdata).set_switch_func = true
    · simp [hf, hm, hself, h1, h2, hne, bu52014hfv_remove, remove_common, monitored, Pin.irq,
        Kernel.run, Kernel.apply, Kernel.boot, dock_initial_update, update_snd,
        List.foldl_append, apply_ite]
      split_ifs <;> simp [Kernel.apply, hne, h1, h2]
    · have hf' : pdata.set_switch_func = false := by simpa [dock_info] using hf
      simp [hf, h5 hf', hm, hself, h1, h2, hne, bu52014hfv_remove, remove_common, monitored,
        Pin.irq, Kernel.run, Kernel.apply, Kernel.boot, dock_initial_update, update_snd,
        List.foldl_append, apply_ite]
      split_ifs <;> simp [Kernel.apply, hne, h1, h2]
  | BU52014HFV_KICKSTAND_SENSOR =>
    simp only [hm] at h ⊢
    obtain ⟨rfl, h1, h2, h3, h5⟩ := kickstand_init_drvdata K pdata info h
    have h3' : K.request_irq 0 (kickstand_info K pdata).irq_kickstand = 0 := h3
    have hself : (kickstand_info K pdata).self = K.kzalloc := rfl
    have hne : ¬ ((0 : Nat) = K.kzalloc) := fun e => h1 e.symm
    refine ⟨by simp [bu52014hfv_remove, hm], ?_, by simp [monitored]⟩
    unfold bu52014hfv_probe_kickstand_init
    simp only [h1, h2, h3', if_false, ne_eq, not_true_eq_false, not_false_eq_true]
    by_cases hf : (kickstand_info K pdata).set_switch_func = true
    · simp [hf, hm, hself, h1, h2, hne, bu52014hfv_remove, remove_common, monitored, Pin.irq,
        Kernel.run, Kernel.apply, Kernel.boot, update_snd, List.foldl_append]
    · have hf' : pdata.set_switch_func = false := by simpa [kickstand_info] using hf
      simp [hf, h5 hf', hm, hself, h1, h2, hne, bu52014hfv_remove, remove_common, monitored,
        Pin.irq, Kernel.run, Kernel.apply, Kernel.boot, update_snd, List.foldl_append]
  | other => simp [hm] at h

/-- C6 on a dock controller with pins 3 and 4 (lines 163 and 164, record at 4096). -/
theorem remove_keeps_subscriptions_witness :
    (Kernel.run Kernel.boot
      ((bu52014hfv_probe (board bank_irq (fun _ => 1)) (dock_pdata 3 4 true)).effects ++
        (bu52014hfv_remove (dock_pdata 3 4 true)
          (dock_info (board bank_irq (fun _ => 1)) (dock_pdata 3 4 true))).2)).subscriptions =
      [(164, 4096), (163, 4096)] :=
  (remove_keeps_subscriptions (board bank_irq (fun _ => 1)) (dock_pdata 3 4 true) _ rfl).2.1

/-- C7 as stated fails: in the calls of `bu52014hfv_remove`, for a dock controller and for
a kickstand controller, `destroy_workqueue` does not come before every release. -/
theorem remove_destroys_workqueue_after_pin_release :
    all_before Effect.is_destroy_workqueue Effect.is_release
      (bu52014hfv_remove (dock_pdata 3 4 true)
        (dock_info (board bank_irq (fun _ => 1)) (dock_pdata 3 4 true))).2 = false ∧
    all_before Effect.is_destroy_workqueue Effect.is_release
      (bu52014hfv_remove (kickstand_pdata 5)
        (kickstand_info (board bank_irq (fun _ => 1)) (kickstand_pdata 5))).2 = false ∧
    (bu52014hfv_remove (dock_pdata 3 4 true)
        (dock_info (board bank_irq (fun _ => 1)) (dock_pdata 3 4 true))).2 =
      [Effect.disable_irq_wake 163, Effect.disable_irq_wake 164,
       Effect.free_irq 163 0, Effect.free_irq 164 0,
       Effect.gpio_free 3, Effect.gpio_free 4,
       Effect.destroy_workqueue 8192, Effect.switch_dev_unregister, Effect.kfree 4096] := by
  refine ⟨by decide, by decide, by decide⟩

/-- C7 as amended: in the calls of `bu52014hfv_remove` for a valid mode,
`destroy_workqueue` is called on the work queue of the record, after every `free_irq` and
`gpio_free` (one of each is made for every monitored pin), and before the switch device
is unregistered and before the record is freed. -/
theorem remove_destroys_workqueue_before_sink_and_memory
    (pdata : bu52014hfv_platform_data) (info : bu52014hfv_info)
    (hmode : pdata.sensor_function ≠ SensorFunction.other) :
    Effect.destroy_workqueue info.work_queue ∈ (bu52014hfv_remove pdata info).2 ∧
    Effect.kfree info.self ∈ (bu52014hfv_remove pdata info).2 ∧
    (∀ pin ∈ monitored pdata.sensor_function,
      Effect.free_irq (pin.irq info) 0 ∈ (bu52014hfv_remove pdata info).2 ∧
      Effect.gpio_free (pin.gpio info) ∈ (bu52014hfv_remove pdata info).2) ∧
    all_before Effect.is_pin_release Effect.is_destroy_workqueue
      (bu52014hfv_remove pdata info).2 = true ∧
    all_before Effect.is_destroy_workqueue Effect.is_sink_or_memory_release
      (bu52014hfv_remove pdata info).2 = true := by
  unfold bu52014hfv_remove remove_common
  cases hm : pdata.sensor_function with
  | other => exact absurd hm hmode
  | BU52014HFV_DOCK_SENSOR =>
    cases hf : info.set_switch_func <;>
      simp [all_before, Effect.is_destroy_workqueue, Effect.is_sink_or_memory_release,
        Effect.is_pin_release, monitored, Pin.irq, Pin.gpio]
  | BU52014HFV_KICKSTAND_SENSOR =>
    cases hf : info.set_switch_func <;>
      simp [all_before, Effect.is_destroy_workqueue, Effect.is_sink_or_memory_release,
        Effect.is_pin_release, monitored, Pin.irq, Pin.gpio]

/-- C7 as amended, on a dock controller publishing through the switch device. -/
theorem remove_destroys_workqueue_before_sink_and_memory_witness :
    all_before Effect.is_pin_release Effect.is_destroy_workqueue
      (bu52014hfv_remove (dock_pdata 3 4 true)
        (dock_info (board bank_irq (fun _ => 1)) (dock_pdata 3 4 true))).2 = true ∧
    all_before Effect.is_destroy_workqueue Effect.is_sink_or_memory_release
      (bu52014hfv_remove (dock_pdata 3 4 true)
        (dock_info (board bank_irq (fun _ => 1)) (dock_pdata 3 4 true))).2 = true :=
  (remove_destroys_workqueue_before_sink_and_memory (dock_pdata 3 4 true)
    (dock_info (board bank_irq (fun _ => 1)) (dock_pdata 3 4 true)) (by decide)).2.2.2

/-! ## The interrupt handler -/

/-- The publication of the work function of a pin. -/
theorem publications_work_func (info : bu52014hfv_info) (pin : Pin) (lv : Int → Int) :
    publications (pin.work_func lv info) =
      [if (bu52014hfv_update lv info (pin.gpio info) (pin.value info)).1 ≠ 0
        then pin.value info else NO_DOCK] := by
  cases pin <;>
    simp only [Pin.work_func, Pin.gpio, Pin.value, bu52014hfv_irq_north_work_func,
      bu52014hfv_irq_south_work_func, bu52014hfv_irq_kickstand_work_func] <;>
    · have hu := publications_update lv info
      simp only [publications, List.filterMap_append] at hu ⊢
      rw [hu]
      simp [Effect.published]

/-- What the work function of a pin publishes, and what the sink then holds, is the same
in any two runs in which that pin reads the same level, whatever the other pins read and
whatever the kernel state, the sink included, was before. -/
theorem work_func_publication_depends_on_own_pin (info : bu52014hfv_info) (pin : Pin)
    (lv1 lv2 : Int → Int) (k1 k2 : Kernel)
    (hl : lv1 (pin.gpio info) = lv2 (pin.gpio info)) :
    publications (pin.work_func lv1 info) = publications (pin.work_func lv2 info) ∧
    (Kernel.run k1 (pin.work_func lv1 info)).sink =
      (Kernel.run k2 (pin.work_func lv2 info)).sink := by
  have hst : (bu52014hfv_update lv1 info (pin.gpio info) (pin.value info)).1 =
      (bu52014hfv_update lv2 info (pin.gpio info) (pin.value info)).1 := by
    rw [update_fst, update_fst, hl]
  have hpub : publications (pin.work_func lv1 info) = publications (pin.work_func lv2 info) := by
    rw [publications_work_func, publications_work_func, hst]
  refine ⟨hpub, ?_⟩
  rw [sink_run, sink_run, hpub, publications_work_func]
  simp

/-- C9, evaluated on a dock controller whose north pin is GPIO 0 (south is GPIO 1,
`north_is_desk` set), with the north pin reading high, that is inactive, and the south
pin reading low: the probe succeeds, and `bu52014hfv_irq_north_work_func` publishes
`DESK_DOCK`, not `NO_DOCK`, and leaves it in the sink, because the record keeps
`gpio_kickstand` at 0 and `bu52014hfv_update` inverts GPIO 0. -/
theorem worker_on_pin_zero_publishes_dock_when_inactive :
    (bu52014hfv_probe_dock_init (board bank_irq (levels 1 0)) (dock_pdata 0 1 true)).drvdata =
      some (dock_info (board bank_irq (levels 1 0)) (dock_pdata 0 1 true)) ∧
    levels 1 0 (dock_info (board bank_irq (levels 1 0)) (dock_pdata 0 1 true)).gpio_north = 1 ∧
    levels 1 0 (dock_info (board bank_irq (levels 1 0)) (dock_pdata 0 1 true)).gpio_south = 0 ∧
    bu52014hfv_irq_north_work_func (levels 1 0)
        (dock_info (board bank_irq (levels 1 0)) (dock_pdata 0 1 true)) =
      [Effect.switch_set_state DESK_DOCK, Effect.enable_irq 160] ∧
    (Kernel.run Kernel.boot (bu52014hfv_irq_north_work_func (levels 1 0)
        (dock_info (board bank_irq (levels 1 0)) (dock_pdata 0 1 true)))).sink =
      some DESK_DOCK := by
  refine ⟨by decide, by decide, by decide, by decide, by decide⟩

end Bu52014hfv
